import Mathlib

/-! Shallow embedding of the MCP connection and tool orchestration layer of the
mcp-nextjs-client repository: the bridge fallback client (`BridgeMCPClient`,
src/lib/mcp/bridge-client.ts), the browser-side client and client manager
(`MCPClient`, `MCPClientManager`, src/lib/mcp/browser-client.ts), the zustand
store actions (`addMCPServer`, `toggleMCPServer`, `refreshMCPTools`,
src/store/index.ts) and the server-side stdio session manager
(`ServerSideMCPManager`, src/lib/mcp/server-manager.ts).

External effects (fetch requests, MCP SDK connections, child processes) are
modelled by explicit oracle/world parameters; every function is a pure Lean
function of the component state, the oracle and the inputs. JavaScript `Map`s
become association lists preserving insertion order; optional string fields
(`command?`, `url?`) become `String` with `""` for absent, matching the
source's truthiness tests. -/

/-- A small JSON-like value universe for tool payloads and demo data. -/
inductive JVal where
  | str (s : String)
  | num (n : Nat)
  | bool (b : Bool)
  | obj (fields : List (String × JVal))
  | arr (elems : List JVal)

/-- Field lookup on a JSON object value (`none` on non-objects). -/
def JVal.lookup : JVal → String → Option JVal
  | .obj fields, key => List.lookup key fields
  | _, _ => none

/-- Outcome of one `fetch` call as seen by the caller: either the promise
rejects (network error) or a response arrives with an `ok` flag
(status in 200..299) and a JSON body. -/
inductive FetchOutcome where
  | netError
  | response (ok : Bool) (body : JVal)

/-- The fixed `structure` object of the demo analysis payload
(bridge-client.ts, getDemoAnalysis). -/
def demoStructure : JVal :=
  .obj [
    ("src/", .obj [
      ("components/", .obj [("type", .str "directory")]),
      ("pages/", .obj [("type", .str "directory")]),
      ("utils/", .obj [("type", .str "directory")])]),
    ("package.json", .obj [("type", .str "file"), ("size", .num 1024)]),
    ("README.md", .obj [("type", .str "file"), ("size", .num 2048)])]

/-- BridgeMCPClient.getDemoAnalysis: the synthetic project-analysis payload,
a pure function of the requested path. -/
def getDemoAnalysis (projectPath : String) : JVal :=
  .obj [
    ("path", .str projectPath),
    ("type", .str "Demo Analysis"),
    ("language", .str "Multiple"),
    ("framework", .str "Modern Web Stack"),
    ("files", .arr [.str "src/", .str "package.json", .str "README.md", .str "tsconfig.json"]),
    ("dependencies", .obj [
      ("react", .str "^18.0.0"),
      ("next", .str "^14.0.0"),
      ("typescript", .str "^5.0.0")]),
    ("structure", demoStructure),
    ("note", .str "This is demo data. Start local bridge server for real analysis.")]

/-- BridgeMCPClient.getDemoFileList: the synthetic directory-listing payload. -/
def getDemoFileList (dirPath : String) : JVal :=
  .obj [
    ("files", .arr [
      .obj [("name", .str "src"), ("type", .str "directory"),
            ("path", .str (dirPath ++ "/src"))],
      .obj [("name", .str "package.json"), ("type", .str "file"),
            ("path", .str (dirPath ++ "/package.json")), ("size", .num 1024)],
      .obj [("name", .str "README.md"), ("type", .str "file"),
            ("path", .str (dirPath ++ "/README.md")), ("size", .num 2048)],
      .obj [("name", .str "tsconfig.json"), ("type", .str "file"),
            ("path", .str (dirPath ++ "/tsconfig.json")), ("size", .num 512)]]),
    ("note", .str "Demo file listing. Start local bridge server for real data.")]

/-- BridgeMCPClient.getDemoFileContent: the synthetic file-content payload. -/
def getDemoFileContent (filePath : String) : JVal :=
  .obj [
    ("content", .str ("// Demo content for " ++ filePath ++
      "\nThis is simulated file content.\nStart the local bridge server to read real files.\n\nBridge Server Setup:\n1. Run: node local-mcp-bridge.js\n2. Bridge URL: http://localhost:3001\n3. Refresh this page")),
    ("path", .str filePath),
    ("note", .str "Demo content. Start local bridge server for real file access.")]

/-- BridgeMCPClient.checkConnection: probes the bridge health endpoint and
caches the result. Returns (result, new cached isConnected flag). An `ok`
response yields connected; any other response or a network error yields
disconnected. -/
def BridgeMCPClient.checkConnection (fetch : FetchOutcome) : Bool × Bool :=
  match fetch with
  | .response true _ => (true, true)
  | .response false _ => (false, false)
  | .netError => (false, false)

/-- BridgeMCPClient.analyzeProject. `isConnected` is the cached health flag;
`fetch` is the outcome the POST to /api/mcp/file-operations would have. The
second component counts network requests actually attempted. With the flag
down the call short-circuits to demo data (0 requests); with the flag up,
a non-ok response or a network error is caught and replaced by the same demo
data. The function is total: no branch propagates an error. -/
def BridgeMCPClient.analyzeProject (isConnected : Bool) (fetch : FetchOutcome)
    (projectPath : String) : JVal × Nat :=
  if !isConnected then (getDemoAnalysis projectPath, 0)
  else
    match fetch with
    | .response true body => (body, 1)
    | .response false _ => (getDemoAnalysis projectPath, 1)
    | .netError => (getDemoAnalysis projectPath, 1)

/-- BridgeMCPClient.listFiles, with the same fallback shape as
`BridgeMCPClient.analyzeProject`. -/
def BridgeMCPClient.listFiles (isConnected : Bool) (fetch : FetchOutcome)
    (dirPath : String) : JVal × Nat :=
  if !isConnected then (getDemoFileList dirPath, 0)
  else
    match fetch with
    | .response true body => (body, 1)
    | .response false _ => (getDemoFileList dirPath, 1)
    | .netError => (getDemoFileList dirPath, 1)

/-- BridgeMCPClient.readFile, with the same fallback shape as
`BridgeMCPClient.analyzeProject`. -/
def BridgeMCPClient.readFile (isConnected : Bool) (fetch : FetchOutcome)
    (filePath : String) : JVal × Nat :=
  if !isConnected then (getDemoFileContent filePath, 0)
  else
    match fetch with
    | .response true body => (body, 1)
    | .response false _ => (getDemoFileContent filePath, 1)
    | .netError => (getDemoFileContent filePath, 1)

/-- The three MCP transport protocols (types/index.ts, MCPTransportType). -/
inductive MCPTransportType where
  | stdio
  | sse
  | websocket
deriving DecidableEq, Repr

/-- One configured MCP server (types/index.ts, MCPServerConfig). Optional
string fields use `""` for absent, matching the truthiness tests in the
source; optional list/map fields use `[]`. -/
structure MCPServerConfig where
  id : String
  name : String
  transport : MCPTransportType
  command : String := ""
  args : List String := []
  env : List (String × String) := []
  url : String := ""
  headers : List (String × String) := []
  description : String := ""
  capabilities : List String := []
  isConnected : Bool := false
deriving DecidableEq, Repr

/-- A tool descriptor as returned by MCPClient.listTools
(types/index.ts, MCPTool). -/
structure MCPTool where
  name : String
  description : String := ""
  inputSchema : JVal := .obj []

/-- Outcome of the SSE reachability probe (the HEAD fetch in
MCPClient.connect): the fetch rejects, or yields an HTTP status code. -/
inductive ProbeOutcome where
  | netError
  | httpStatus (code : Nat)
deriving DecidableEq, Repr

/-- The external world consulted by MCPClient.connect: the result of the
POST to /api/mcp/servers on the stdio path (error value is the thrown
message) and the SSE probe outcome. -/
structure BrowserWorld where
  stdioPost : Except String Unit
  sseProbe : ProbeOutcome

/-- The errors MCPClient.connect can throw, one constructor per throw site
that can escape the function. -/
inductive ConnectError where
  | stdioFailed (msg : String)
  | sseUrlRequired
  | wsUrlRequired
  | wsBadScheme
deriving DecidableEq, Repr

/-- fetch Response.ok: status in the inclusive range 200..299. -/
def respOk (code : Nat) : Bool := 200 ≤ code && code ≤ 299

/-- Whether the SSE probe block throws internally: the fetch itself rejects,
or the code path `if (!response.ok && response.status !== 405) throw`
fires. Both throws are caught by the surrounding catch, which only logs. -/
def sseProbeThrows : ProbeOutcome → Bool
  | .netError => true
  | .httpStatus code => !respOk code && code != 405

/-- The probe judges the endpoint reachable exactly when its block does not
throw: an ok (2xx) response or a 405. -/
def probeReachable (r : ProbeOutcome) : Bool := !sseProbeThrows r

/-- The warning logged when the SSE probe fails but connect proceeds. -/
def sseProbeWarning : String :=
  "SSE endpoint test failed, proceeding with connection attempt"

/-- MCPClient.connect (browser-client.ts). Returns the resulting
`isConnected` flag together with the warnings logged on the way, or the
thrown error. On the sse path the probe failure is swallowed by the inner
catch, so connect reaches `isConnected = true` for every probe outcome. -/
def MCPClient.connect (cfg : MCPServerConfig) (w : BrowserWorld) :
    Except ConnectError (Bool × List String) :=
  match cfg.transport with
  | .stdio =>
    match w.stdioPost with
    | .ok _ => .ok (true, [])
    | .error msg => .error (.stdioFailed msg)
  | .sse =>
    if cfg.url = "" then .error .sseUrlRequired
    else if sseProbeThrows w.sseProbe then .ok (true, [sseProbeWarning])
    else .ok (true, [])
  | .websocket =>
    if cfg.url = "" then .error .wsUrlRequired
    else if !(cfg.url.startsWith "ws://" || cfg.url.startsWith "wss://") then
      .error .wsBadScheme
    else .ok (true, [])

/-- The hardcoded fallback tool names getServerTools returns for
demo-server-1 when the live listTools call fails. -/
def demoServer1Tools : List String :=
  ["file_read", "file_write", "file_list", "dir_create", "search_files"]

/-- The hardcoded fallback tool names getServerTools returns for
demo-server-2 when the live listTools call fails. -/
def demoServer2Tools : List String :=
  ["web_scrape", "api_call", "http_request", "json_parse", "url_validate"]

/-- MCPClientManager.getServerTools (browser-client.ts). `clients` is the
manager's client map reduced to each client's connection flag;
`listToolsResult` is the outcome the client's listTools call would have.
Total: every failure branch returns a plain list. -/
def MCPClientManager.getServerTools (clients : List (String × Bool))
    (listToolsResult : Except String (List MCPTool)) (serverId : String) :
    List String :=
  match List.lookup serverId clients with
  | none => []
  | some connected =>
    if !connected then []
    else
      match listToolsResult with
      | .ok tools => tools.map MCPTool.name
      | .error _ =>
        if serverId = "demo-server-1" then demoServer1Tools
        else if serverId = "demo-server-2" then demoServer2Tools
        else []

/-- JavaScript `Map.set` on an insertion-ordered association list: replace
the value in place when the key is present, append otherwise. -/
def assocSet {β : Type} (m : List (String × β)) (k : String) (v : β) :
    List (String × β) :=
  if (List.lookup k m).isSome then
    m.map (fun p => if p.1 = k then (k, v) else p)
  else m ++ [(k, v)]

/-- JavaScript `Map.delete` on an association list. -/
def assocDelete {β : Type} (m : List (String × β)) (k : String) :
    List (String × β) :=
  m.filter (fun p => p.1 != k)

/-- The slice of the zustand store state (store/index.ts) the MCP actions
touch. `clients` is MCPClientManager.clients reduced to each client's
connection flag. -/
structure AppState where
  mcpServers : List MCPServerConfig
  availableTools : List String := []
  clients : List (String × Bool) := []
  isLoading : Bool := false
  error : Option String := none
deriving DecidableEq, Repr

/-- The external world the store actions consult: the browser connect world
and, per server id, the outcome of that client's listTools call. -/
structure StoreWorld where
  connect : BrowserWorld
  listTools : String → Except String (List MCPTool)

/-- The errors addMCPServer can throw, one constructor per throw site. -/
inductive AddServerError where
  | idNameRequired
  | commandRequired
  | urlRequired
  | duplicateId (id : String)
  | connectFailed (e : ConnectError)
deriving DecidableEq, Repr

/-- The `message` of a connect error, as stored into `state.error` by the
catch block of addMCPServer. -/
def connectErrorMessage : ConnectError → String
  | .stdioFailed msg => msg
  | .sseUrlRequired => "SSE URL is required"
  | .wsUrlRequired => "WebSocket URL is required"
  | .wsBadScheme => "WebSocket URL must start with ws:// or wss://"

/-- The simulated tool list refreshMCPTools falls back to when some server
is connected but no tools were collected. -/
def demoToolsList : List String :=
  ["file_read", "file_write", "file_list", "dir_create", "search_files",
   "web_scrape", "api_call", "data_analysis", "image_process", "pdf_extract",
   "json_parse", "csv_read", "excel_read", "sql_query", "http_request",
   "text_summarize", "translate", "sentiment_analysis", "keyword_extract", "regex_match",
   "math_calculate", "date_format", "string_process", "hash_generate", "encode_decode",
   "git_status", "git_commit", "git_push", "git_pull", "git_branch",
   "docker_run", "docker_build", "process_list", "system_info", "disk_usage",
   "network_ping", "port_scan", "dns_lookup", "ssl_check", "url_validate",
   "email_send", "sms_send"]

/-- refreshMCPTools (store/index.ts): collect tool names from every
connected server via getServerTools, swallowing per-server failures; if
some server is connected but the total is empty, substitute the demo list. -/
def refreshMCPTools (servers : List MCPServerConfig)
    (clients : List (String × Bool)) (w : StoreWorld) : List String :=
  let totalTools := servers.foldl
    (fun acc s =>
      if s.isConnected then
        acc ++ MCPClientManager.getServerTools clients (w.listTools s.id) s.id
      else acc) []
  if servers.any (fun s => s.isConnected) && totalTools.isEmpty then
    demoToolsList
  else totalTools

/-- addMCPServer (store/index.ts): client-side validation, duplicate-id
check, then MCPClientManager.addServer (which runs MCPClient.connect and
registers the client only on success), then server-list append and tool
refresh. Returns the thrown error (if any) together with the state after
the call. -/
def addMCPServer (st : AppState) (cfg : MCPServerConfig) (w : StoreWorld) :
    Except AddServerError Unit × AppState :=
  if cfg.id = "" ∨ cfg.name = "" then (.error .idNameRequired, st)
  else if cfg.transport = .stdio ∧ cfg.command = "" then
    (.error .commandRequired, st)
  else if (cfg.transport = .sse ∨ cfg.transport = .websocket) ∧ cfg.url = "" then
    (.error .urlRequired, st)
  else if (st.mcpServers.find? (fun s => s.id == cfg.id)).isSome then
    (.error (.duplicateId cfg.id), st)
  else
    let st1 : AppState := { st with isLoading := true, error := none }
    match MCPClient.connect cfg w.connect with
    | .error e =>
      (.error (.connectFailed e),
       { st1 with error := some (connectErrorMessage e), isLoading := false })
    | .ok _ =>
      let clients1 := assocSet st1.clients cfg.id true
      let servers1 := st1.mcpServers ++ [{ cfg with isConnected := true }]
      let tools1 := refreshMCPTools servers1 clients1 w
      (.ok (),
       { st1 with mcpServers := servers1, clients := clients1,
                  availableTools := tools1, isLoading := false })

/-- toggleMCPServer (store/index.ts), the pure server-list update: flip the
`isConnected` flag of the server whose id matches, leave everything else
as is. -/
def toggleMCPServer (servers : List MCPServerConfig) (serverId : String) :
    List MCPServerConfig :=
  servers.map (fun s =>
    if s.id = serverId then { s with isConnected := !s.isConnected } else s)

/-- The full toggleMCPServer store action: update the server list, then
refresh the available tools from the new list. -/
def toggleMCPServerAction (st : AppState) (w : StoreWorld) (serverId : String) :
    AppState :=
  let servers1 := toggleMCPServer st.mcpServers serverId
  { st with mcpServers := servers1,
            availableTools := refreshMCPTools servers1 st.clients w }

/-- The transport-level operations a store action can trigger on the
browser client layer. -/
inductive StoreEffect where
  | connectCall (id : String)
  | disconnectCall (id : String)
  | listToolsCall (id : String)
deriving DecidableEq, Repr

/-- The transport operations getServerTools performs: one listTools fetch
when the client exists and is connected, none otherwise (the hardcoded
fallback lists involve no further call). -/
def getServerToolsEffects (clients : List (String × Bool)) (serverId : String) :
    List StoreEffect :=
  match List.lookup serverId clients with
  | none => []
  | some connected => if connected then [.listToolsCall serverId] else []

/-- The transport operations refreshMCPTools performs, in iteration order. -/
def refreshEffects (clients : List (String × Bool)) :
    List MCPServerConfig → List StoreEffect
  | [] => []
  | s :: rest =>
    (if s.isConnected then getServerToolsEffects clients s.id else []) ++
      refreshEffects clients rest

/-- The transport operations the toggleMCPServer action performs: only
those of the tool refresh on the toggled list. -/
def toggleEffects (servers : List MCPServerConfig)
    (clients : List (String × Bool)) (serverId : String) : List StoreEffect :=
  refreshEffects clients (toggleMCPServer servers serverId)

/-- One entry of ServerSideMCPManager.servers (server-manager.ts,
MCPServerProcess). Handles (`process`, `client`, `transport`) are reduced
to their presence: the code only ever tests them for null and passes them
whole to close/kill. -/
structure MCPServerProcess where
  id : String
  name : String
  command : String
  args : List String
  process : Option Unit := none
  client : Option Unit := none
  transport : Option Unit := none
  isConnected : Bool := false
deriving DecidableEq, Repr

/-- ServerSideMCPManager.servers: a JavaScript Map in insertion order. -/
abbrev ManagerState := List (String × MCPServerProcess)

/-- The config addServer receives (the POST body of /api/mcp/servers). -/
structure StdioServerConfig where
  id : String
  name : String
  command : String
  args : List String := []
  env : List (String × String) := []
deriving DecidableEq, Repr

/-- The errors the server-side manager throws: the precondition failure
`Server not found or not connected`, or a rethrown upstream error. -/
inductive MgrError where
  | notConnected
  | upstream (msg : String)
deriving DecidableEq, Repr

/-- The teardown operations removeServer performs on a session's handles. -/
inductive MgrEffect where
  | clientClose (id : String)
  | processKill (id : String)
deriving DecidableEq, Repr

/-- ServerSideMCPManager.addServer. The connection attempt (SDK transport
creation plus client.connect) is the `connectResult` oracle. On failure the
error is rethrown (first component) and `this.servers` is untouched: the
`servers.set` call sits after the awaited connect. On success the session
is stored with `client` present, `isConnected` true and `process` still
null (the code never assigns it). -/
def ServerSideMCPManager.addServer (st : ManagerState) (cfg : StdioServerConfig)
    (connectResult : Except String Unit) : Option String × ManagerState :=
  let serverProcess : MCPServerProcess :=
    { id := cfg.id, name := cfg.name, command := cfg.command, args := cfg.args }
  let serverProcess := { serverProcess with transport := some () }
  match connectResult with
  | .error e => (some e, st)
  | .ok _ =>
    let serverProcess :=
      { serverProcess with client := some (), isConnected := true }
    (none, assocSet st cfg.id serverProcess)

/-- ServerSideMCPManager.removeServer. Absent id: plain return, no error,
no change. Present: close the client and kill the process when the handles
exist (shutdown errors are swallowed by the catch), then always delete the
entry. Total: no branch throws. -/
def ServerSideMCPManager.removeServer (st : ManagerState) (serverId : String) :
    ManagerState × List MgrEffect :=
  match List.lookup serverId st with
  | none => (st, [])
  | some server =>
    let effects :=
      (if server.client.isSome then [MgrEffect.clientClose serverId] else []) ++
        (if server.process.isSome then [MgrEffect.processKill serverId] else [])
    (assocDelete st serverId, effects)

/-- ServerSideMCPManager.listTools. `oracle` is the outcome of the SDK
client's listTools call; the third component counts transport calls
actually made. The guard `!server || !server.client || !server.isConnected`
throws before any call; the map is never mutated. -/
def ServerSideMCPManager.listTools (st : ManagerState) (serverId : String)
    (oracle : Except String (List MCPTool)) :
    Except MgrError (List MCPTool) × ManagerState × Nat :=
  match List.lookup serverId st with
  | none => (.error .notConnected, st, 0)
  | some server =>
    if server.client.isNone || !server.isConnected then
      (.error .notConnected, st, 0)
    else
      match oracle with
      | .ok tools => (.ok tools, st, 1)
      | .error e => (.error (.upstream e), st, 1)

/-- ServerSideMCPManager.callTool, with the same guard as listTools. -/
def ServerSideMCPManager.callTool (st : ManagerState) (serverId : String)
    (toolName : String) (args : JVal) (oracle : Except String JVal) :
    Except MgrError JVal × ManagerState × Nat :=
  match List.lookup serverId st with
  | none => (.error .notConnected, st, 0)
  | some server =>
    if server.client.isNone || !server.isConnected then
      (.error .notConnected, st, 0)
    else
      match oracle with
      | .ok response => (.ok response, st, 1)
      | .error e => (.error (.upstream e), st, 1)

/-- The loop body of ServerSideMCPManager.getAllTools over the remaining
entries: connected sessions with a client are queried through listTools,
failures are caught and the server omitted. -/
def ServerSideMCPManager.getAllToolsAux (st : ManagerState)
    (oracle : String → Except String (List MCPTool)) :
    List (String × MCPServerProcess) → List (String × List MCPTool)
  | [] => []
  | (serverId, server) :: rest =>
    if server.isConnected && server.client.isSome then
      match (ServerSideMCPManager.listTools st serverId (oracle serverId)).1 with
      | .ok tools =>
        (serverId, tools) :: ServerSideMCPManager.getAllToolsAux st oracle rest
      | .error _ => ServerSideMCPManager.getAllToolsAux st oracle rest
    else ServerSideMCPManager.getAllToolsAux st oracle rest

/-- ServerSideMCPManager.getAllTools: iterate the whole map. Total: the
try/catch in the loop swallows every per-server failure. -/
def ServerSideMCPManager.getAllTools (st : ManagerState)
    (oracle : String → Except String (List MCPTool)) :
    List (String × List MCPTool) :=
  ServerSideMCPManager.getAllToolsAux st oracle st

/-- Fixture: a registered stdio server with id "a". -/
def cfgA : MCPServerConfig :=
  { id := "a", name := "Server A", transport := .stdio, command := "run-a",
    isConnected := true }

/-- Fixture: a store state whose registry already holds `cfgA`. -/
def fixtureState : AppState :=
  { mcpServers := [cfgA], clients := [("a", true)] }

/-- Fixture: a descriptor whose id duplicates `cfgA` but whose name is
empty, so it fails the field validation that runs before the duplicate
check. -/
def invalidDupCfg : MCPServerConfig :=
  { id := "a", name := "", transport := .stdio, command := "run-b" }

/-- Fixture: a fully valid descriptor whose id duplicates `cfgA`. -/
def validDupCfg : MCPServerConfig :=
  { id := "a", name := "Server A again", transport := .stdio, command := "run-b" }

/-- Fixture: a store world in which every listTools call fails. -/
def offlineWorld : StoreWorld :=
  { connect := { stdioPost := .ok (), sseProbe := .netError },
    listTools := fun _ => .error "offline" }

/-- Fixture: a registered but disconnected server-side session. -/
def disconnectedProc : MCPServerProcess :=
  { id := "s1", name := "S1", command := "run-s1", args := [],
    client := some (), transport := some (), isConnected := false }

/-- Fixture: a manager whose only session is disconnected. -/
def disconnectedMgr : ManagerState := [("s1", disconnectedProc)]

/-- Fixture: a stdio server config for the add/remove round trip. -/
def sampleStdioCfg : StdioServerConfig :=
  { id := "srv", name := "Srv", command := "cmd" }

/-- Fixture: a connected server-side session with id "alpha". -/
def connectedProcA : MCPServerProcess :=
  { id := "alpha", name := "A", command := "run-alpha", args := [],
    client := some (), transport := some (), isConnected := true }

/-- Fixture: a disconnected server-side session with id "beta". -/
def disconnectedProcB : MCPServerProcess :=
  { id := "beta", name := "B", command := "run-beta", args := [],
    client := some (), transport := some (), isConnected := false }

/-- Fixture: a single tool descriptor. -/
def sampleTool : MCPTool := { name := "file_read" }

/-- Fixture: an oracle where only server "alpha" answers listTools. -/
def sampleOracle : String → Except String (List MCPTool) :=
  fun serverId => if serverId = "alpha" then .ok [sampleTool] else .error "down"

/-- Fixture: an SSE server descriptor with a non-empty url. -/
def sseCfg : MCPServerConfig :=
  { id := "sse1", name := "SSE Server", transport := .sse,
    url := "http://localhost:8080/mcp/events" }

/-- Fixture: a browser world whose SSE probe answers HTTP 500. -/
def probe500World : BrowserWorld :=
  { stdioPost := .error "unused", sseProbe := .httpStatus 500 }

/-- Claim C2: if connection establishment throws during
ServerSideMCPManager.addServer, the add fails entirely: the error is
rethrown to the caller with its underlying cause and the registry after
the failed call equals the registry before it, so no partial session is
stored and the discarded local record is the only thing that ever held a
handle. -/
theorem serverManager_addServer_failure_atomic (st : ManagerState)
    (cfg : StdioServerConfig) (e : String) :
    ServerSideMCPManager.addServer st cfg (.error e) = (some e, st) := rfl

/-- Claim C7: every bridge operation is total and best-effort: with the
cached health flag down it returns the synthetic payload with zero network
requests attempted, and with the flag up a non-2xx response or a network
error is swallowed and replaced by the same synthetic payload. -/
theorem bridge_operations_never_fail (p : String) (f : FetchOutcome)
    (body : JVal) :
    BridgeMCPClient.analyzeProject false f p = (getDemoAnalysis p, 0) ∧
    BridgeMCPClient.listFiles false f p = (getDemoFileList p, 0) ∧
    BridgeMCPClient.readFile false f p = (getDemoFileContent p, 0) ∧
    BridgeMCPClient.analyzeProject true (.response false body) p =
      (getDemoAnalysis p, 1) ∧
    BridgeMCPClient.analyzeProject true .netError p = (getDemoAnalysis p, 1) ∧
    BridgeMCPClient.listFiles true (.response false body) p =
      (getDemoFileList p, 1) ∧
    BridgeMCPClient.listFiles true .netError p = (getDemoFileList p, 1) ∧
    BridgeMCPClient.readFile true (.response false body) p =
      (getDemoFileContent p, 1) ∧
    BridgeMCPClient.readFile true .netError p = (getDemoFileContent p, 1) :=
  ⟨rfl, rfl, rfl, rfl, rfl, rfl, rfl, rfl, rfl⟩

/-- Claim C8: the synthetic bridge payloads are deterministic in the input
path — with the health flag down the result of analyzeProject does not
depend on the ambient fetch world, and the type and structure fields are
the same fixed values on every call — and each synthetic payload carries a
note field stating the data is simulated. -/
theorem bridge_demo_deterministic_note (p : String) (f g : FetchOutcome) :
    BridgeMCPClient.analyzeProject false f p =
      BridgeMCPClient.analyzeProject false g p ∧
    (getDemoAnalysis p).lookup "type" = some (.str "Demo Analysis") ∧
    (getDemoAnalysis p).lookup "structure" = some demoStructure ∧
    (getDemoAnalysis p).lookup "note" =
      some (.str "This is demo data. Start local bridge server for real analysis.") ∧
    (getDemoFileList p).lookup "note" =
      some (.str "Demo file listing. Start local bridge server for real data.") ∧
    (getDemoFileContent p).lookup "note" =
      some (.str "Demo content. Start local bridge server for real file access.") :=
  ⟨rfl, rfl, rfl, rfl, rfl, rfl⟩

/-- Claim C10: MCPClientManager.getServerTools is total and returns the
empty list when the server id has no registered client or the client's
connection flag is false; when the live listTools call fails it returns
the hardcoded fallback lists for demo-server-1 and demo-server-2 and the
empty list for every other id. -/
theorem getServerTools_fallback (clients : List (String × Bool))
    (r : Except String (List MCPTool)) (serverId : String) :
    (List.lookup serverId clients = none →
      MCPClientManager.getServerTools clients r serverId = []) ∧
    (List.lookup serverId clients = some false →
      MCPClientManager.getServerTools clients r serverId = []) ∧
    (∀ ts, List.lookup serverId clients = some true → r = .ok ts →
      MCPClientManager.getServerTools clients r serverId =
        ts.map MCPTool.name) ∧
    (∀ e, List.lookup serverId clients = some true → r = .error e →
      MCPClientManager.getServerTools clients r serverId =
        if serverId = "demo-server-1" then demoServer1Tools
        else if serverId = "demo-server-2" then demoServer2Tools
        else []) := by
  refine ⟨?_, ?_, ?_, ?_⟩
  · intro h; simp [MCPClientManager.getServerTools, h]
  · intro h; simp [MCPClientManager.getServerTools, h]
  · intro ts h hr; subst hr; simp [MCPClientManager.getServerTools, h]
  · intro e h hr; subst hr; simp [MCPClientManager.getServerTools, h]

/-- Witness for C10 at concrete inputs: a failing listTools call on
demo-server-1 yields its hardcoded list, and an unregistered id yields the
empty list. -/
theorem getServerTools_fallback_inst :
    MCPClientManager.getServerTools [("demo-server-1", true)] (.error "boom")
      "demo-server-1" = demoServer1Tools ∧
    MCPClientManager.getServerTools [("demo-server-1", true)] (.error "boom")
      "other" = [] := by
  constructor
  · have h := (getServerTools_fallback [("demo-server-1", true)] (.error "boom")
      "demo-server-1").2.2.2 "boom" rfl rfl
    simpa using h
  · exact (getServerTools_fallback [("demo-server-1", true)] (.error "boom")
      "other").1 rfl

/-- Claim C3: when the session is absent from the server-side registry or
not connected, callTool and listTools fail with the not-connected error,
make zero transport calls (third component) and leave the registry
unchanged (second component). -/
theorem serverManager_guard_not_connected (st : ManagerState)
    (serverId toolName : String) (args : JVal)
    (lo : Except String (List MCPTool)) (co : Except String JVal)
    (h : ∀ s, List.lookup serverId st = some s → s.isConnected = false) :
    ServerSideMCPManager.callTool st serverId toolName args co =
      (.error .notConnected, st, 0) ∧
    ServerSideMCPManager.listTools st serverId lo =
      (.error .notConnected, st, 0) := by
  cases hl : List.lookup serverId st with
  | none =>
    exact ⟨by simp [ServerSideMCPManager.callTool, hl],
           by simp [ServerSideMCPManager.listTools, hl]⟩
  | some server =>
    have hc := h server hl
    exact ⟨by simp [ServerSideMCPManager.callTool, hl, hc],
           by simp [ServerSideMCPManager.listTools, hl, hc]⟩

/-- Witness for C3 at concrete inputs: a registered-but-disconnected
session and a missing session both produce the not-connected error with no
transport call made. -/
theorem serverManager_guard_not_connected_inst :
    ServerSideMCPManager.callTool disconnectedMgr "s1" "echo" (.obj [])
      (.ok (.str "r")) = (.error .notConnected, disconnectedMgr, 0) ∧
    ServerSideMCPManager.listTools disconnectedMgr "missing" (.ok []) =
      (.error .notConnected, disconnectedMgr, 0) := by
  constructor
  · refine (serverManager_guard_not_connected disconnectedMgr "s1" "echo"
      (.obj []) (.ok []) (.ok (.str "r")) ?_).1
    intro s hs
    have he : List.lookup "s1" disconnectedMgr = some disconnectedProc := rfl
    rw [he] at hs
    injection hs with hs
    rw [← hs]
    rfl
  · refine (serverManager_guard_not_connected disconnectedMgr "missing" "echo"
      (.obj []) (.ok []) (.ok (.str "r")) ?_).2
    intro s hs
    have he : List.lookup "missing" disconnectedMgr = none := rfl
    rw [he] at hs
    exact absurd hs (by simp)

/-- Claim C4: ServerSideMCPManager.addServer on an empty registry followed
immediately by removeServer leaves the registry empty and closes the
session's client handle (which releases the spawned process); and
removeServer on an absent id — in particular a second removal of the same
id — is a no-op returning no error and performing no teardown. -/
theorem serverManager_add_remove_idempotent (cfg : StdioServerConfig) :
    (ServerSideMCPManager.addServer [] cfg (.ok ())).1 = none ∧
    ServerSideMCPManager.removeServer
      (ServerSideMCPManager.addServer [] cfg (.ok ())).2 cfg.id =
      ([], [MgrEffect.clientClose cfg.id]) ∧
    (∀ (st : ManagerState) (serverId : String),
      List.lookup serverId st = none →
      ServerSideMCPManager.removeServer st serverId = (st, [])) := by
  refine ⟨rfl, ?_, ?_⟩
  · simp [ServerSideMCPManager.addServer, ServerSideMCPManager.removeServer,
      assocSet, assocDelete, List.lookup]
  · intro st serverId h
    simp [ServerSideMCPManager.removeServer, h]

/-- Witness for C4 at a concrete config: the add/remove round trip empties
the registry with a single client-close, and removing from the emptied
registry again is a silent no-op. -/
theorem serverManager_add_remove_idempotent_inst :
    ServerSideMCPManager.removeServer
      (ServerSideMCPManager.addServer [] sampleStdioCfg (.ok ())).2 "srv" =
      ([], [MgrEffect.clientClose "srv"]) ∧
    ServerSideMCPManager.removeServer [] "srv" = ([], []) :=
  ⟨(serverManager_add_remove_idempotent sampleStdioCfg).2.1,
   (serverManager_add_remove_idempotent sampleStdioCfg).2.2 [] "srv" rfl⟩

/-- Claim C6: for an sse descriptor with a non-empty url, the probe judges
an HTTP status reachable exactly when it is 2xx or 405 and a network error
unreachable, yet MCPClient.connect succeeds with the session marked
connected for every probe outcome — an unreachable probe only adds the
logged warning. -/
theorem mcpClient_connect_sse_probe_advisory (cfg : MCPServerConfig)
    (w : BrowserWorld) (ht : cfg.transport = .sse) (hu : cfg.url ≠ "") :
    (∀ code, probeReachable (.httpStatus code) = (respOk code || code == 405)) ∧
    probeReachable .netError = false ∧
    MCPClient.connect cfg w =
      .ok (true, if sseProbeThrows w.sseProbe then [sseProbeWarning] else []) := by
  refine ⟨?_, rfl, ?_⟩
  · intro code
    cases h1 : respOk code <;> cases h2 : code == 405 <;>
      simp [probeReachable, sseProbeThrows, h1, h2, bne]
  · simp only [MCPClient.connect, ht]
    rw [if_neg hu]
    cases hts : sseProbeThrows w.sseProbe <;> simp [hts]

/-- Witness for C6 at concrete inputs: an HTTP 500 probe still leaves
connect succeeding with the connected flag set and the advisory warning
logged. -/
theorem mcpClient_connect_sse_probe_advisory_inst :
    MCPClient.connect sseCfg probe500World = .ok (true, [sseProbeWarning]) := by
  have h := (mcpClient_connect_sse_probe_advisory sseCfg probe500World rfl
    (by decide)).2.2
  simpa [probe500World, sseProbeThrows, respOk] using h

/-- Counterexample to C1 as stated: the store registry already holds a
server with id "a", yet addMCPServer on a descriptor with that id and an
empty name throws the field-validation error, not the duplicate-id error —
the validation runs before the duplicate check. The state is still
unchanged. -/
theorem addMCPServer_invalid_duplicate_cex :
    addMCPServer fixtureState invalidDupCfg offlineWorld =
      (.error .idNameRequired, fixtureState) ∧
    (Except.error AddServerError.idNameRequired ≠
      (Except.error (AddServerError.duplicateId "a") : Except AddServerError Unit)) ∧
    fixtureState.mcpServers.any (fun s => s.id == invalidDupCfg.id) = true :=
  ⟨rfl, by simp, by decide⟩

/-- Claim C1 (amended): for every registry state and every descriptor that
passes the client-side field validation (non-empty id and name, a command
for stdio, a url for sse/websocket) whose id is already present in the
registry, addMCPServer rejects the add with the duplicate-id error and the
state after the call equals the state before it, so the registry maps the
id to the same entry as before. -/
theorem addMCPServer_duplicate_rejected (st : AppState) (cfg : MCPServerConfig)
    (w : StoreWorld)
    (hid : cfg.id ≠ "") (hname : cfg.name ≠ "")
    (hcmd : cfg.transport = .stdio → cfg.command ≠ "")
    (hurl : cfg.transport = .sse ∨ cfg.transport = .websocket → cfg.url ≠ "")
    (hdup : ∃ s ∈ st.mcpServers, s.id = cfg.id) :
    addMCPServer st cfg w = (.error (.duplicateId cfg.id), st) := by
  have hfind : (st.mcpServers.find? (fun s => s.id == cfg.id)).isSome := by
    rw [List.find?_isSome]
    obtain ⟨s, hs, hsid⟩ := hdup
    exact ⟨s, hs, by simp [hsid]⟩
  unfold addMCPServer
  rw [if_neg (by tauto), if_neg (by tauto), if_neg (by tauto), if_pos hfind]

/-- Witness for the amended C1 at concrete inputs: a fully valid descriptor
duplicating the registered id "a" is rejected with the duplicate-id error
and the concrete store state is returned unchanged. -/
theorem addMCPServer_duplicate_rejected_inst :
    addMCPServer fixtureState validDupCfg offlineWorld =
      (.error (.duplicateId "a"), fixtureState) := by
  have h := addMCPServer_duplicate_rejected fixtureState validDupCfg offlineWorld
    (by decide) (by decide) (fun _ => by decide) (fun hc => absurd hc (by decide))
    ⟨cfgA, by simp [fixtureState], rfl⟩
  exact h

/-- Helper: ServerSideMCPManager.listTools answers `.ok ts` only when the
upstream oracle itself answered `.ok ts`: every guard branch and the error
branch produce errors. -/
theorem listTools_ok_implies_oracle (st : ManagerState) (serverId : String)
    (oracle : Except String (List MCPTool)) (ts : List MCPTool)
    (h : (ServerSideMCPManager.listTools st serverId oracle).1 = .ok ts) :
    oracle = .ok ts := by
  cases hl : List.lookup serverId st with
  | none => simp [ServerSideMCPManager.listTools, hl] at h
  | some server =>
    by_cases hg : (server.client.isNone || !server.isConnected) = true
    · simp [ServerSideMCPManager.listTools, hl, hg] at h
    · cases oracle with
      | ok t => simpa [ServerSideMCPManager.listTools, hl, hg] using h
      | error e => simp [ServerSideMCPManager.listTools, hl, hg] at h

/-- Claim C5: getAllTools tolerates individual failures: every entry it
returns comes from a server whose listTools oracle succeeded with exactly
those tools (so a failing server is silently omitted, and the aggregation
itself never produces an error); and on a registry holding one connected
and one disconnected server it returns tools only from the connected one. -/
theorem serverManager_getAllTools_partial :
    (∀ (st : ManagerState) (oracle : String → Except String (List MCPTool))
       (e : String × List MCPTool),
       e ∈ ServerSideMCPManager.getAllTools st oracle → oracle e.1 = .ok e.2) ∧
    (∀ (a b : String) (sa sb : MCPServerProcess) (ts : List MCPTool)
       (oracle : String → Except String (List MCPTool)),
       sa.isConnected = true → sa.client = some () → sb.isConnected = false →
       oracle a = .ok ts →
       ServerSideMCPManager.getAllTools [(a, sa), (b, sb)] oracle = [(a, ts)]) := by
  constructor
  · intro st oracle
    suffices hall : ∀ l (e : String × List MCPTool),
        e ∈ ServerSideMCPManager.getAllToolsAux st oracle l →
        oracle e.1 = .ok e.2 from fun e he => hall st e he
    intro l
    induction l with
    | nil => intro e he; simp [ServerSideMCPManager.getAllToolsAux] at he
    | cons p rest ih =>
      obtain ⟨serverId, server⟩ := p
      intro e he
      rw [ServerSideMCPManager.getAllToolsAux] at he
      by_cases hg : (server.isConnected && server.client.isSome) = true
      · rw [if_pos hg] at he
        cases hres : (ServerSideMCPManager.listTools st serverId
            (oracle serverId)).1 with
        | ok tools =>
          rw [hres] at he
          rcases List.mem_cons.mp he with h1 | h2
          · rw [h1]
            exact listTools_ok_implies_oracle st serverId (oracle serverId)
              tools hres
          · exact ih e h2
        | error err =>
          rw [hres] at he
          exact ih e he
      · rw [if_neg hg] at he
        exact ih e he
  · intro a b sa sb ts oracle hca hcl hcb hora
    simp [ServerSideMCPManager.getAllTools, ServerSideMCPManager.getAllToolsAux,
      ServerSideMCPManager.listTools, List.lookup, hca, hcl, hcb, hora]

/-- Witness for C5 at concrete inputs: a two-server registry with "alpha"
connected and "beta" disconnected aggregates exactly the tools of
"alpha". -/
theorem serverManager_getAllTools_partial_inst :
    ServerSideMCPManager.getAllTools
      [("alpha", connectedProcA), ("beta", disconnectedProcB)] sampleOracle =
      [("alpha", [sampleTool])] :=
  serverManager_getAllTools_partial.2 "alpha" "beta" connectedProcA
    disconnectedProcB [sampleTool] sampleOracle rfl rfl rfl
    (by simp [sampleOracle])

/-- Helper: every effect getServerTools performs is a listTools fetch for
the requested id. -/
theorem getServerToolsEffects_only (clients : List (String × Bool))
    (serverId : String) :
    ∀ e ∈ getServerToolsEffects clients serverId,
      e = StoreEffect.listToolsCall serverId := by
  intro e he
  unfold getServerToolsEffects at he
  cases hl : List.lookup serverId clients with
  | none => rw [hl] at he; simp at he
  | some connected =>
    rw [hl] at he
    cases connected <;> simp at he
    exact he

/-- Helper: every effect a tool refresh performs is a listTools fetch. -/
theorem refreshEffects_only_listTools (clients : List (String × Bool))
    (servers : List MCPServerConfig) :
    ∀ e ∈ refreshEffects clients servers,
      ∃ j, e = StoreEffect.listToolsCall j := by
  induction servers with
  | nil => intro e he; simp [refreshEffects] at he
  | cons s rest ih =>
    intro e he
    rw [refreshEffects] at he
    rcases List.mem_append.mp he with h1 | h2
    · by_cases hc : s.isConnected = true
      · rw [if_pos hc] at h1
        exact ⟨s.id, getServerToolsEffects_only clients s.id e h1⟩
      · rw [if_neg hc] at h1; simp at h1
    · exact ih e h2

/-- Claim C9: toggleMCPServer is a pure pointwise update of the server
list: the server whose id matches gets exactly its isConnected flag
negated and keeps every other field, every other server is returned
unchanged, the list length is preserved (no server added or removed), an
id that matches no server leaves the list unchanged, and the effects the
toggle action performs contain no connect and no disconnect call. -/
theorem toggleMCPServer_frame (servers : List MCPServerConfig)
    (clients : List (String × Bool)) (serverId : String) :
    List.Forall₂ (fun s t =>
      (s.id ≠ serverId → t = s) ∧
      (s.id = serverId → t = { s with isConnected := !s.isConnected }))
      servers (toggleMCPServer servers serverId) ∧
    (toggleMCPServer servers serverId).length = servers.length ∧
    ((∀ s ∈ servers, s.id ≠ serverId) →
      toggleMCPServer servers serverId = servers) ∧
    (∀ e ∈ toggleEffects servers clients serverId,
      (∀ j, e ≠ StoreEffect.connectCall j) ∧
      (∀ j, e ≠ StoreEffect.disconnectCall j)) := by
  refine ⟨?_, by simp [toggleMCPServer], ?_, ?_⟩
  · induction servers with
    | nil => exact List.Forall₂.nil
    | cons s rest ih =>
      refine List.Forall₂.cons ⟨?_, ?_⟩ ih
      · intro h; simp [toggleMCPServer, h]
      · intro h; simp [toggleMCPServer, h]
  · intro h
    induction servers with
    | nil => rfl
    | cons s rest ih =>
      have hs : s.id ≠ serverId := h s (by simp)
      have hr : ∀ x ∈ rest, x.id ≠ serverId := fun x hx => h x (by simp [hx])
      calc toggleMCPServer (s :: rest) serverId
          = (if s.id = serverId then { s with isConnected := !s.isConnected }
              else s) :: toggleMCPServer rest serverId := rfl
        _ = s :: rest := by rw [if_neg hs, ih hr]
  · intro e he
    obtain ⟨j, hj⟩ := refreshEffects_only_listTools clients
      (toggleMCPServer servers serverId) e he
    exact ⟨fun k => by rw [hj]; simp, fun k => by rw [hj]; simp⟩

/-- Witness for C9 at concrete inputs: toggling an id absent from the
registry leaves the concrete server list unchanged. -/
theorem toggleMCPServer_frame_inst :
    toggleMCPServer [cfgA] "absent-id" = [cfgA] :=
  (toggleMCPServer_frame [cfgA] [("a", true)] "absent-id").2.2.1
    (fun s hs => by
      rcases List.mem_singleton.mp hs with h
      rw [h]
      decide)
